import Mathlib

/-!
Verification of the WhatsApp connection-orchestration core of the repository:
the `ConnectionStateManager` lifecycle state machine, the `ReconnectionManager`
retry scheduler, the `MessageManager` outbound queue, and the `WhatsAppClient`
event wiring.  Each TypeScript class is embedded as pure Lean definitions over
explicit state records; asynchronous callbacks become explicit step functions,
`Date.now()` and `Math.random()` become parameters, and emitted listener
notifications become explicit event lists.
-/

namespace SaasWA

/-- The lifecycle states (`WhatsAppStatus` in the source, see the
`WHATSAPP_STATES` constant and the domain of `validTransitions`). -/
inductive WAStatus
  | disconnected
  | unlaunched
  | opening
  | connecting
  | waiting_qr
  | pairing
  | connected
  | error
  | timeout
  | conflict
  | deprecated_version
  | proxyblock
  | smb_tos_block
  | tos_block
  | unpaired
  | unpaired_idle
deriving DecidableEq, Repr, Fintype

/-- One entry of `ConnectionStateManager.stateHistory`. -/
structure HistEntry where
  state : WAStatus
  timestamp : Int
deriving DecidableEq, Repr

/-- `ConnectionStateManager.maxHistorySize`. -/
def maxHistorySize : Nat := 50

/-- The `validTransitions` table of `ConnectionStateManager`, transcribed
entry by entry from the source. -/
def validTransitions : WAStatus → List WAStatus
  | .disconnected => [.connecting, .opening, .unlaunched]
  | .unlaunched => [.opening, .connecting, .disconnected]
  | .opening => [.connecting, .waiting_qr, .pairing, .error, .disconnected]
  | .connecting => [.waiting_qr, .pairing, .connected, .error, .timeout, .disconnected]
  | .waiting_qr => [.connecting, .pairing, .connected, .timeout, .error, .disconnected]
  | .pairing => [.connected, .unpaired, .error, .timeout, .disconnected]
  | .connected => [.disconnected, .error, .conflict, .deprecated_version, .proxyblock,
      .smb_tos_block, .tos_block]
  | .error => [.disconnected, .connecting, .opening]
  | .timeout => [.disconnected, .connecting, .opening]
  | .conflict => [.disconnected, .connecting]
  | .deprecated_version => [.disconnected]
  | .proxyblock => [.disconnected, .connecting]
  | .smb_tos_block => [.disconnected]
  | .tos_block => [.disconnected]
  | .unpaired => [.disconnected, .connecting, .unpaired_idle]
  | .unpaired_idle => [.disconnected, .connecting]

/-- The mutable fields of `ConnectionStateManager`. -/
structure SMState where
  currentState : WAStatus
  previousState : WAStatus
  qrCode : Option String
  stateHistory : List HistEntry
deriving DecidableEq, Repr

/-- Listener notifications emitted by the state manager: `notifyStateChange`
delivers `(new, old)`, `emitConnectionEvent` delivers a typed event with a
timestamp. -/
inductive SMEvent
  | stateChange (newState oldState : WAStatus)
  | connectionEvent (state : WAStatus) (timestamp : Int)
deriving DecidableEq, Repr

/-- Push an element and keep only the newest `cap` entries when the length
exceeds the cap: the JavaScript `push` followed by a conditional
`slice(-cap)` (or `splice(0, length - cap)`), shared by the state history
and the per-chat message history. -/
def cappedPush {α : Type} (l : List α) (x : α) (cap : Nat) : List α :=
  if (l ++ [x]).length > cap then (l ++ [x]).drop ((l ++ [x]).length - cap)
  else l ++ [x]

/-- `ConnectionStateManager.addToHistory`: push the entry, then
`slice(-maxHistorySize)` when the length exceeds the cap. -/
def addToHistory (h : List HistEntry) (st : WAStatus) (now : Int) : List HistEntry :=
  cappedPush h { state := st, timestamp := now } maxHistorySize

/-- The state produced by the `ConnectionStateManager` constructor, which
starts at `disconnected` and records it into the history. -/
def smInit (now : Int) : SMState :=
  { currentState := .disconnected
    previousState := .disconnected
    qrCode := none
    stateHistory := addToHistory [] .disconnected now }

/-- `ConnectionStateManager.canTransitionTo`: membership in the transition
table row of the current state (the row always exists). -/
def canTransitionTo (s : SMState) (newState : WAStatus) : Bool :=
  decide (newState ∈ validTransitions s.currentState)

/-- Return value, post-state and emitted notifications of one
`setState` call. -/
structure SetStateResult where
  ok : Bool
  state : SMState
  events : List SMEvent
deriving DecidableEq, Repr

/-- `ConnectionStateManager.setState`: duplicate target is a no-op success,
an illegal target is rejected before any mutation, otherwise the state,
previous state and history are updated and both listener sets are notified. -/
def setState (s : SMState) (newState : WAStatus) (now : Int) : SetStateResult :=
  if s.currentState = newState then
    { ok := true, state := s, events := [] }
  else if canTransitionTo s newState then
    { ok := true
      state :=
        { s with
          previousState := s.currentState
          currentState := newState
          stateHistory := addToHistory s.stateHistory newState now }
      events := [.stateChange newState s.currentState, .connectionEvent newState now] }
  else
    { ok := false, state := s, events := [] }

/-- `ConnectionStateManager.forceSetState`: bypasses validation, records the
transition and notifies only the plain state-change listeners. -/
def forceSetState (s : SMState) (newState : WAStatus) (now : Int) : SMState × List SMEvent :=
  ({ s with
      previousState := s.currentState
      currentState := newState
      stateHistory := addToHistory s.stateHistory newState now },
   [.stateChange newState s.currentState])

/-- `ConnectionStateManager.reset`: back to `disconnected` with a fresh
history (the QR code field is not touched by `reset`). -/
def smReset (s : SMState) (now : Int) : SMState :=
  { s with
    currentState := .disconnected
    previousState := .disconnected
    stateHistory := addToHistory [] .disconnected now }

/-- `ConnectionStateManager.setQrCode`. -/
def setQrCode (s : SMState) (qr : Option String) : SMState :=
  { s with qrCode := qr }

/-- The state-manager operations that can mutate the history. -/
inductive SMOp
  | set (t : WAStatus) (now : Int)
  | force (t : WAStatus) (now : Int)
  | reset (now : Int)

/-- Apply one operation to the manager state. -/
def applySMOp (s : SMState) : SMOp → SMState
  | .set t now => (setState s t now).state
  | .force t now => (forceSetState s t now).1
  | .reset now => smReset s now

/-- Apply a sequence of operations. -/
def applySMOps (s : SMState) (ops : List SMOp) : SMState :=
  ops.foldl applySMOp s

/-- A state-manager state sitting at a given lifecycle state, used for
concrete evaluations. -/
def atState (st : WAStatus) : SMState :=
  { currentState := st
    previousState := .disconnected
    qrCode := none
    stateHistory := [] }

/-- A capped push keeps the last `cap` elements: the source's conditional
slice equals the unconditional `drop` of the overflow. -/
theorem cappedPush_eq_drop {α : Type} (l : List α) (x : α) (cap : Nat) :
    cappedPush l x cap = (l ++ [x]).drop (l.length + 1 - cap) := by
  unfold cappedPush
  have hlen : (l ++ [x]).length = l.length + 1 := by simp
  rw [hlen]
  by_cases h : l.length + 1 > cap
  · rw [if_pos h]
  · rw [if_neg h]
    have h0 : l.length + 1 - cap = 0 := by omega
    rw [h0, List.drop_zero]

/-- A capped push stays within the cap. -/
theorem cappedPush_length_le {α : Type} (l : List α) (x : α) (cap : Nat)
    (hle : l.length ≤ cap) : (cappedPush l x cap).length ≤ cap := by
  unfold cappedPush
  by_cases hgt : (l ++ [x]).length > cap
  · rw [if_pos hgt, List.length_drop]
    omega
  · rw [if_neg hgt]
    omega

/-- `addToHistory` never grows the history beyond the cap. -/
theorem addToHistory_length_le (h : List HistEntry) (st : WAStatus) (now : Int)
    (hle : h.length ≤ maxHistorySize) :
    (addToHistory h st now).length ≤ maxHistorySize :=
  cappedPush_length_le h _ maxHistorySize hle

/-- Each operation preserves the history bound. -/
theorem applySMOp_history_le (s : SMState) (op : SMOp)
    (hle : s.stateHistory.length ≤ maxHistorySize) :
    (applySMOp s op).stateHistory.length ≤ maxHistorySize := by
  cases op with
  | set t now =>
    unfold applySMOp setState
    by_cases h1 : s.currentState = t
    · simpa [h1]
    · by_cases h2 : canTransitionTo s t
      · simpa [h1, h2] using addToHistory_length_le s.stateHistory t now hle
      · simpa [h1, h2]
  | force t now =>
    exact addToHistory_length_le s.stateHistory t now hle
  | reset now =>
    have h0 : ([] : List HistEntry).length ≤ maxHistorySize := by simp
    exact addToHistory_length_le [] .disconnected now h0

/-- The history bound is preserved along any operation sequence. -/
theorem applySMOps_history_le (ops : List SMOp) (s : SMState)
    (hle : s.stateHistory.length ≤ maxHistorySize) :
    (applySMOps s ops).stateHistory.length ≤ maxHistorySize := by
  induction ops generalizing s with
  | nil => simpa [applySMOps]
  | cons op rest ih =>
    have hstep : applySMOps s (op :: rest) = applySMOps (applySMOp s op) rest := rfl
    rw [hstep]
    exact ih _ (applySMOp_history_le s op hle)

/-- C1: for all lifecycle states, `setState(T)` from `S` succeeds iff `T` is in
the legal-transition set of `S` or `T = S`; the duplicate case is a no-op
success emitting nothing, and a rejected call mutates nothing and emits no
event. -/
theorem setState_success_iff (s : SMState) (t : WAStatus) (now : Int) :
    ((setState s t now).ok = true ↔
      t ∈ validTransitions s.currentState ∨ t = s.currentState)
    ∧ (t = s.currentState →
        setState s t now = ({ ok := true, state := s, events := [] } : SetStateResult))
    ∧ ((setState s t now).ok = false →
        (setState s t now).state = s ∧ (setState s t now).events = []) := by
  unfold setState
  by_cases h1 : s.currentState = t
  · simp [h1]
  · rw [if_neg h1]
    by_cases h2 : canTransitionTo s t
    · rw [if_pos h2]
      have hmem : t ∈ validTransitions s.currentState := of_decide_eq_true h2
      refine ⟨iff_of_true rfl (Or.inl hmem), ?_, ?_⟩
      · intro heq
        exact absurd heq.symm h1
      · intro hfalse
        simp at hfalse
    · rw [if_neg h2]
      have hmem : t ∉ validTransitions s.currentState := fun hm => h2 (decide_eq_true hm)
      refine ⟨iff_of_false (by simp) ?_, ?_, ?_⟩
      · rintro (hm | heq)
        · exact hmem hm
        · exact h1 heq.symm
      · intro heq
        exact absurd heq.symm h1
      · intro _
        exact ⟨rfl, rfl⟩

/-- Witness for `setState_success_iff` at concrete inputs: the duplicate
no-op case and the rejection case, evaluated on explicit states. -/
theorem setState_success_iff_witness :
    setState (smInit 0) .disconnected 1
      = ({ ok := true, state := smInit 0, events := [] } : SetStateResult)
    ∧ (setState (smInit 0) .connected 1).state = smInit 0
    ∧ (setState (smInit 0) .connected 1).events = [] := by
  refine ⟨(setState_success_iff (smInit 0) .disconnected 1).2.1 (by decide), ?_⟩
  exact (setState_success_iff (smInit 0) .connected 1).2.2 (by decide)

/-- C2: after any operation sequence (validated sets, forced sets, resets)
the transition history holds at most 50 records, and recording into the
history drops exactly the oldest overflow entries, so the most recent 50
remain in order. -/
theorem stateHistory_bounded (now : Int) (ops : List SMOp) :
    (applySMOps (smInit now) ops).stateHistory.length ≤ maxHistorySize
    ∧ ∀ (h : List HistEntry) (st : WAStatus) (ts : Int),
        addToHistory h st ts
          = (h ++ [({ state := st, timestamp := ts } : HistEntry)]).drop
              (h.length + 1 - maxHistorySize) := by
  constructor
  · apply applySMOps_history_le
    simp [smInit, addToHistory, cappedPush, maxHistorySize]
  · intro h st ts
    unfold addToHistory
    exact cappedPush_eq_drop h ({ state := st, timestamp := ts } : HistEntry) maxHistorySize

/-- C5 as stated is false on the code: from `conflict` (and likewise from
`proxyblock`) the target `opening` is rejected, because the table rows for
those two states are only `[disconnected, connecting]`. -/
theorem conflict_proxyblock_opening_rejected :
    (setState (atState .conflict) .opening 0).ok = false
    ∧ (setState (atState .proxyblock) .opening 0).ok = false
    ∧ WAStatus.opening ∉ validTransitions .conflict
    ∧ WAStatus.opening ∉ validTransitions .proxyblock := by
  decide

/-- C5 amended: from `error` and `timeout` the legal-transition set is exactly
`{disconnected, connecting, opening}`, while from `conflict` and `proxyblock`
it is exactly `{disconnected, connecting}`: `setState` succeeds precisely on
those targets (or on the trivial self-target). -/
theorem failure_state_transition_sets :
    (∀ t : WAStatus, (setState (atState .error) t 0).ok = true ↔
        t ∈ [WAStatus.disconnected, .connecting, .opening] ∨ t = .error)
    ∧ (∀ t : WAStatus, (setState (atState .timeout) t 0).ok = true ↔
        t ∈ [WAStatus.disconnected, .connecting, .opening] ∨ t = .timeout)
    ∧ (∀ t : WAStatus, (setState (atState .conflict) t 0).ok = true ↔
        t ∈ [WAStatus.disconnected, .connecting] ∨ t = .conflict)
    ∧ (∀ t : WAStatus, (setState (atState .proxyblock) t 0).ok = true ↔
        t ∈ [WAStatus.disconnected, .connecting] ∨ t = .proxyblock) := by
  decide

/-! ## ReconnectionManager (`connection/reconnection-manager.ts`) -/

/-- `charsStartWith hay needle`: `needle` is a prefix of `hay` (character
comparison used by the substring scan below). -/
def charsStartWith : List Char → List Char → Bool
  | _, [] => true
  | [], _ :: _ => false
  | c :: cs, d :: ds => c = d && charsStartWith cs ds

/-- `charsContain needle hay`: `needle` occurs contiguously inside `hay`. -/
def charsContain (needle : List Char) : List Char → Bool
  | [] => charsStartWith [] needle
  | c :: cs => charsStartWith (c :: cs) needle || charsContain needle cs

/-- `ReconnectionManager.shouldReconnect`: the `nonRecoverableStates`
deny-list. -/
def nonRecoverableStates : List WAStatus :=
  [.deprecated_version, .tos_block, .smb_tos_block]

/-- The `nonRecoverableErrors` markers of `shouldReconnect`; the source
lowercases each marker before the comparison, so they are transcribed here
already in lowercase. -/
def nonRecoverableErrors : List String :=
  ["authentication_failure", "invalid_session", "banned", "deprecated"]

/-- ASCII lowercase of one character (the deny-list markers are all ASCII,
so JavaScript `toLowerCase` restricted to ASCII is what the comparison
exercises). -/
def lowerChar (c : Char) : Char :=
  if c.toNat ≥ 65 && c.toNat ≤ 90 then Char.ofNat (c.toNat + 32) else c

/-- ASCII lowercase of a character list. -/
def lowerChars (cs : List Char) : List Char := cs.map lowerChar

/-- The error test of `shouldReconnect`: the lowercased message contains one
of the deny-listed markers. -/
def isNonRecoverableError (message : String) : Bool :=
  nonRecoverableErrors.any
    (fun marker => charsContain marker.toList (lowerChars message.toList))

/-- The `reconnectableStates` allow-list of `shouldReconnect`. -/
def reconnectableStates : List WAStatus :=
  [.disconnected, .error, .timeout, .conflict, .proxyblock]

/-- `ReconnectionManager.shouldReconnect`, with the instance fields
`reconnectAttempts` and `maxReconnectAttempts` made explicit parameters and
the optional error represented by its message. -/
def shouldReconnect (reconnectAttempts maxReconnectAttempts : Nat)
    (state : WAStatus) (error : Option String) : Bool :=
  if reconnectAttempts ≥ maxReconnectAttempts then false
  else if state ∈ nonRecoverableStates then false
  else if (match error with
           | some msg => isNonRecoverableError msg
           | none => false) = true then false
  else decide (state ∈ reconnectableStates)

/-- The mutable fields of `ReconnectionManager` relevant to the retry cycle
(`reconnectTimer` is abstracted to whether a timer is scheduled). -/
structure RMState where
  reconnectAttempts : Nat
  maxReconnectAttempts : Nat
  reconnectIntervalMs : ℚ
  isReconnecting : Bool
  timerScheduled : Bool
deriving DecidableEq, Repr

/-- The `ReconnectionEvent`s emitted to listeners. -/
inductive RMEvent
  | reconnection_started (attempts : Nat) (delay : ℚ) (reason : String)
  | max_attempts_reached (attempts : Nat) (reason : String)
  | reconnection_stopped (attempts : Nat)
  | reconnection_success (attempts : Nat)
  | reconnection_failed (attempts : Nat) (error : String)
  | reconnection_reset (attempts : Nat)
deriving DecidableEq, Repr

/-- `backoffMultiplier = 1.5` in the source. -/
def backoffMultiplier : ℚ := 3 / 2

/-- `maxBackoffMs = 300000` (5 minutes) in the source. -/
def maxBackoffMs : ℚ := 300000

/-- `ReconnectionManager.calculateBackoffDelay`:
`min(base * multiplier^(attempts-1) + jitter, maxBackoffMs)` where the jitter
is `Math.random() * 0.1` of the exponential term; `rand` stands for the
`Math.random()` draw, so `0 ≤ rand < 1`. -/
def calculateBackoffDelay (reconnectIntervalMs : ℚ) (reconnectAttempts : Nat)
    (rand : ℚ) : ℚ :=
  min (reconnectIntervalMs * backoffMultiplier ^ (reconnectAttempts - 1)
        + rand * (1 / 10) * (reconnectIntervalMs * backoffMultiplier ^ (reconnectAttempts - 1)))
    maxBackoffMs

/-- `ReconnectionManager.startReconnection`: an in-flight cycle returns at
once; exhausted attempts emit the terminal event without scheduling;
otherwise the counter is bumped, a timer is scheduled for the backoff delay
and the `reconnection_started` event is emitted. -/
def startReconnection (s : RMState) (reason : String) (rand : ℚ) :
    RMState × List RMEvent :=
  if s.isReconnecting then (s, [])
  else if s.reconnectAttempts ≥ s.maxReconnectAttempts then
    (s, [.max_attempts_reached s.reconnectAttempts reason])
  else
    ({ s with
        isReconnecting := true
        reconnectAttempts := s.reconnectAttempts + 1
        timerScheduled := true },
     [.reconnection_started (s.reconnectAttempts + 1)
        (calculateBackoffDelay s.reconnectIntervalMs (s.reconnectAttempts + 1) rand)
        reason])

/-- C4 as stated is false on the code: once the attempt counter has reached
the configured maximum, `shouldReconnect` returns `false` even for the
allow-listed transient state `disconnected` with no error present. -/
theorem shouldReconnect_exhausted_counterexample :
    WAStatus.disconnected ∈ reconnectableStates
    ∧ shouldReconnect 10 10 .disconnected none = false := by
  decide

/-- C4 amended: `shouldReconnect` returns `false` whenever the error message
matches a deny-listed marker, regardless of state; and it returns `true` for
every allow-listed transient state whenever the error is absent or not
deny-listed, provided the attempt counter is still below the configured
maximum. -/
theorem shouldReconnect_policy (attempts maxA : Nat) (state : WAStatus)
    (msg : String) (e : Option String) :
    (isNonRecoverableError msg = true →
      shouldReconnect attempts maxA state (some msg) = false)
    ∧ (attempts < maxA → state ∈ reconnectableStates →
        (∀ m, e = some m → isNonRecoverableError m = false) →
        shouldReconnect attempts maxA state e = true) := by
  constructor
  · intro hbad
    unfold shouldReconnect
    by_cases h1 : attempts ≥ maxA
    · rw [if_pos h1]
    · rw [if_neg h1]
      by_cases h2 : state ∈ nonRecoverableStates
      · rw [if_pos h2]
      · rw [if_neg h2, if_pos hbad]
  · intro hlt hallow hok
    have disj : ∀ s : WAStatus, s ∈ reconnectableStates → s ∉ nonRecoverableStates := by
      decide
    unfold shouldReconnect
    rw [if_neg (by omega : ¬ attempts ≥ maxA), if_neg (disj state hallow)]
    cases e with
    | none =>
      rw [if_neg (by simp)]
      exact decide_eq_true hallow
    | some m =>
      rw [if_neg (by simp [hok m rfl])]
      exact decide_eq_true hallow

/-- Witness for `shouldReconnect_policy`: a deny-listed error message is
refused from the non-listed state `connected`, and the allow-listed state
`disconnected` with no error and attempts remaining is accepted. -/
theorem shouldReconnect_policy_witness :
    shouldReconnect 0 10 .connected (some "Error: BANNED account") = false
    ∧ shouldReconnect 0 10 .disconnected none = true := by
  constructor
  · exact (shouldReconnect_policy 0 10 .connected "Error: BANNED account" none).1
      (by decide)
  · exact (shouldReconnect_policy 0 10 .disconnected "unused" none).2
      (by decide) (by decide) (fun m h => Option.noConfusion h)

/-- C8: while a retry cycle is in flight, `startReconnection` is a no-op:
the state (attempt counter and timer included) is unchanged and no
retry-lifecycle event is emitted. -/
theorem startReconnection_inflight_noop (s : RMState) (reason : String) (rand : ℚ)
    (h : s.isReconnecting = true) :
    startReconnection s reason rand = (s, []) := by
  unfold startReconnection
  rw [if_pos h]

/-- Witness for `startReconnection_inflight_noop` on a concrete in-flight
manager state. -/
theorem startReconnection_inflight_noop_witness :
    startReconnection
        { reconnectAttempts := 3, maxReconnectAttempts := 10,
          reconnectIntervalMs := 5000, isReconnecting := true,
          timerScheduled := true } "driver failure" 0
      = ({ reconnectAttempts := 3, maxReconnectAttempts := 10,
           reconnectIntervalMs := 5000, isReconnecting := true,
           timerScheduled := true }, []) :=
  startReconnection_inflight_noop _ "driver failure" 0 rfl

/-- C9: the computed backoff delay is
`min(base * multiplier^(n-1) + jitter, maxDelay)`, hence never exceeds
`maxBackoffMs`, and ignoring jitter it is non-decreasing in the attempt
number (for a non-negative base interval) until the cap is reached. -/
theorem calculateBackoffDelay_spec (base : ℚ) (n : Nat) (rand : ℚ) :
    calculateBackoffDelay base n rand
      = min (base * backoffMultiplier ^ (n - 1)
              + rand * (1 / 10) * (base * backoffMultiplier ^ (n - 1)))
          maxBackoffMs
    ∧ calculateBackoffDelay base n rand ≤ maxBackoffMs
    ∧ (1 ≤ n → 0 ≤ base →
        calculateBackoffDelay base n 0 ≤ calculateBackoffDelay base (n + 1) 0) := by
  refine ⟨rfl, min_le_right _ _, ?_⟩
  intro _ hbase
  unfold calculateBackoffDelay
  simp only [zero_mul, add_zero]
  refine min_le_min ?_ le_rfl
  have hm : (1 : ℚ) ≤ backoffMultiplier := by norm_num [backoffMultiplier]
  exact mul_le_mul_of_nonneg_left (pow_le_pow_right₀ hm (Nat.sub_le_succ_sub n 1)) hbase

/-- Witness for `calculateBackoffDelay_spec`: at base 5000 ms the delay of
attempt 1 is below the delay of attempt 2. -/
theorem calculateBackoffDelay_spec_witness :
    calculateBackoffDelay 5000 1 0 ≤ calculateBackoffDelay 5000 2 0 :=
  (calculateBackoffDelay_spec 5000 1 0).2.2 (by norm_num) (by norm_num)

/-! ## MessageManager (`messaging/message-manager.ts`) -/

/-- A JavaScript primitive value where the dynamic `typeof` check matters
(the `timestamp` field of a raw payload). -/
inductive JsVal
  | num (n : Int)
  | str (s : String)
deriving DecidableEq, Repr

/-- JavaScript truthiness of such a value (`0` and the empty string are
falsy). -/
def JsVal.truthy : JsVal → Bool
  | .num n => !(n == 0)
  | .str s => !(s == "")

/-- JavaScript truthiness of an optional string field (absent and empty are
falsy). -/
def strTruthy : Option String → Bool
  | some s => !(s == "")
  | none => false

/-- JavaScript `a || b || ''` over two optional string fields. -/
def jsOr2 (a b : Option String) : String :=
  if strTruthy a then a.getD "" else if strTruthy b then b.getD "" else ""

/-- JavaScript `s.startsWith(p)`. -/
def strStartsWith (s p : String) : Bool :=
  charsStartWith s.toList p.toList

/-- JavaScript `o || d` over an optional number (both `undefined` and `0`
are falsy and fall to the default). -/
def jsNumOr (o : Option Nat) (d : Nat) : Nat :=
  match o with
  | some n => if n = 0 then d else n
  | none => d

/-- The lifecycle status of a `QueuedMessage`. -/
inductive MsgStatus
  | queued
  | sending
  | sent
  | failed
  | cancelled
deriving DecidableEq, Repr

/-- The media part of a structured `MessageContent` (the binary `data`
payload is opaque to the manager and omitted). -/
structure MediaContent where
  mimetype : String
  filename : Option String := none
deriving DecidableEq, Repr

/-- `MessageContent`: a plain string or a structured object.  The
`location`, `contact` and `poll` sub-objects matter to the manager only
through their presence, so they are carried as presence flags. -/
inductive MessageContent
  | str (s : String)
  | obj (text : Option String) (media : Option MediaContent) (caption : Option String)
      (location : Bool) (contact : Bool) (poll : Bool)
deriving DecidableEq, Repr

/-- `MessageOptions`. -/
structure MessageOptions where
  quotedMessageId : Option String := none
  mentions : List String := []
  linkPreview : Option Bool := none
  maxRetries : Option Nat := none
  priority : Option String := none
  scheduledAt : Option Int := none
deriving DecidableEq, Repr

/-- `QueuedMessage`. -/
structure QueuedMessage where
  id : String
  «to» : String
  content : MessageContent
  options : MessageOptions
  status : MsgStatus
  timestamp : Int
  sentAt : Option Int := none
  retryCount : Nat
  maxRetries : Nat
  lastError : Option String := none
deriving DecidableEq, Repr

/-- The canonical `WhatsAppMessage` record.  `type` is a plain string at
runtime (TypeScript unions are erased and `parseMessage` passes the raw tag
through); the recursive `quotedMessage` field is omitted, it is never read
by the manager. -/
structure WhatsAppMessage where
  id : String
  «from» : String
  «to» : String
  body : String
  type : String
  timestamp : JsVal
  fromMe : Bool
  hasMedia : Bool
  mediaUrl : Option String := none
  caption : Option String := none
  mentions : List String := []
  isForwarded : Bool
  isStatus : Bool
deriving DecidableEq, Repr

/-- A raw vendor payload as `parseMessage` reads it.  `id` models the string
resolved by `rawMessage.id?.id || rawMessage.id`; absent fields are `none`
or `false`.  Property access on such a record cannot throw, so `parseMessage`
is total. -/
structure RawMessage where
  id : Option String := none
  «from» : Option String := none
  author : Option String := none
  «to» : Option String := none
  chatId : Option String := none
  body : Option String := none
  content : Option String := none
  type : Option String := none
  timestamp : Option JsVal := none
  fromMe : Bool := false
  hasMedia : Bool := false
  mimetype : Option String := none
  location : Bool := false
  vCards : Bool := false
  poll : Bool := false
  mediaUrl : Option String := none
  caption : Option String := none
  mentionedIds : List String := []
  isForwarded : Bool := false
  isStatus : Bool := false
deriving DecidableEq, Repr

/-- `MessageManager.parseMessageType`: the raw tag if present, else a type
inferred from media mimetype or content markers, defaulting to `"text"`. -/
def parseMessageType (raw : RawMessage) : String :=
  if strTruthy raw.type then raw.type.getD ""
  else if raw.hasMedia then
    if strStartsWith (raw.mimetype.getD "") "image/" then "image"
    else if strStartsWith (raw.mimetype.getD "") "video/" then "video"
    else if strStartsWith (raw.mimetype.getD "") "audio/" then "audio"
    else "document"
  else if raw.location then "location"
  else if raw.vCards then "contact"
  else if raw.poll then "poll"
  else "text"

/-- `MessageManager.parseMessage`: field-by-field normalization with
JavaScript `||` defaulting; `genId` stands for the `generateMessageId()`
draw and `now` for `Date.now()`. -/
def parseMessage (raw : RawMessage) (genId : String) (now : Int) : WhatsAppMessage :=
  { id := if strTruthy raw.id then raw.id.getD "" else genId
    «from» := jsOr2 raw.«from» raw.author
    «to» := jsOr2 raw.«to» raw.chatId
    body := jsOr2 raw.body raw.content
    type := parseMessageType raw
    timestamp :=
      match raw.timestamp with
      | some v => if v.truthy then v else .num now
      | none => .num now
    fromMe := raw.fromMe
    hasMedia := raw.hasMedia
    mediaUrl := raw.mediaUrl
    caption := raw.caption
    mentions := raw.mentionedIds
    isForwarded := raw.isForwarded
    isStatus := raw.isStatus }

/-- `MessageManager.validateMessage`: truthy `id`, `from`, `to`, `type` and
a numeric `timestamp`. -/
def validateMessage (m : WhatsAppMessage) : Bool :=
  !(m.id == "") && !(m.«from» == "") && !(m.«to» == "") && !(m.type == "") &&
    (match m.timestamp with
     | .num _ => true
     | .str _ => false)

/-- `MessageManager.extractMessageBody`. -/
def extractMessageBody : MessageContent → String
  | .str s => s
  | .obj text _ caption _ _ _ =>
    if strTruthy text then text.getD ""
    else if strTruthy caption then caption.getD ""
    else ""

/-- `MessageManager.determineMessageType`. -/
def determineMessageType : MessageContent → String
  | .str _ => "text"
  | .obj _ media _ location contact poll =>
    match media with
    | some md =>
      if strStartsWith md.mimetype "image/" then "image"
      else if strStartsWith md.mimetype "video/" then "video"
      else if strStartsWith md.mimetype "audio/" then "audio"
      else "document"
    | none =>
      if location then "location"
      else if contact then "contact"
      else if poll then "poll"
      else "text"

/-- `MessageManager.hasMedia`. -/
def hasMediaContent : MessageContent → Bool
  | .str _ => false
  | .obj _ media _ _ _ _ => media.isSome

/-- Lookup in a JavaScript `Map` with string keys (keys are unique, so an
association list with in-place replacement is a faithful model). -/
def alGet {α : Type} : List (String × α) → String → Option α
  | [], _ => none
  | (k2, v) :: rest, k => if k2 = k then some v else alGet rest k

/-- `Map.set`: replace in place when the key exists, else append. -/
def alSet {α : Type} : List (String × α) → String → α → List (String × α)
  | [], k, v => [(k, v)]
  | (k2, v2) :: rest, k, v =>
    if k2 = k then (k, v) :: rest else (k2, v2) :: alSet rest k v

/-- `MessageManager.maxHistoryPerChat`. -/
def maxHistoryPerChat : Nat := 100

/-- The conversation key of `MessageManager.addToHistory`: the counterparty
(`to` for own messages, `from` otherwise). -/
def chatIdOf (m : WhatsAppMessage) : String :=
  if m.fromMe then m.«to» else m.«from»

/-- `MessageManager.addToHistory`: append to the per-chat list, evicting the
oldest overflow (`splice(0, length - maxHistoryPerChat)`). -/
def mmAddToHistory (hist : List (String × List WhatsAppMessage)) (m : WhatsAppMessage) :
    List (String × List WhatsAppMessage) :=
  alSet hist (chatIdOf m)
    (cappedPush ((alGet hist (chatIdOf m)).getD []) m maxHistoryPerChat)

/-- The mutable fields of `MessageManager`. -/
structure MMState where
  messageQueue : List (String × QueuedMessage)
  messageHistory : List (String × List WhatsAppMessage)
deriving DecidableEq, Repr

/-- The `MessageEventType` notifications, tagged with the message id. -/
inductive MMEvent
  | message_received (id : String)
  | message_queued (id : String)
  | message_sending (id : String)
  | message_sent (id : String)
  | message_failed (id : String)
  | message_retry (id : String)
  | message_cancelled (id : String)
deriving DecidableEq, Repr

/-- `MessageManager.processIncomingMessage`: parse, validate (rejecting with
`null` and no mutation), then record into the per-conversation history and
notify listeners.  All property reads are total here, so the surrounding
`try/catch` never fires. -/
def processIncomingMessage (s : MMState) (raw : RawMessage) (genId : String)
    (now : Int) : Option WhatsAppMessage × MMState × List MMEvent :=
  if validateMessage (parseMessage raw genId now) then
    (some (parseMessage raw genId now),
     { s with messageHistory := mmAddToHistory s.messageHistory (parseMessage raw genId now) },
     [.message_received (parseMessage raw genId now).id])
  else
    (none, s, [])

/-- `MessageManager.queueOutgoingMessage`: store a fresh `queued` record
(`maxRetries` defaults through JavaScript `||` to 3) and notify. -/
def queueOutgoingMessage (s : MMState) («to» : String) (content : MessageContent)
    (options : MessageOptions) (messageId : String) (now : Int) :
    String × MMState × List MMEvent :=
  (messageId,
   { s with
      messageQueue :=
        alSet s.messageQueue messageId
          { id := messageId
            «to» := «to»
            content := content
            options := options
            status := .queued
            timestamp := now
            sentAt := none
            retryCount := 0
            maxRetries := jsNumOr options.maxRetries 3
            lastError := none } },
   [.message_queued messageId])

/-- The resolution of the `sendFunction` call inside `sendQueuedMessage`. -/
inductive SendOutcome
  | ok
  | fail (errMsg : String)
deriving DecidableEq, Repr

/-- The outbound record built on a successful send. -/
def mkSentMessage (qm : QueuedMessage) (now : Int) : WhatsAppMessage :=
  { id := qm.id
    «from» := "me"
    «to» := qm.«to»
    body := extractMessageBody qm.content
    type := determineMessageType qm.content
    timestamp := .num now
    fromMe := true
    hasMedia := hasMediaContent qm.content
    isForwarded := false
    isStatus := false }

/-- `MessageManager.sendQueuedMessage`: unknown ids and in-flight (`sending`)
messages are rejected with no mutation; success records the sent message to
history and marks the entry `sent` (its delayed 5-second eviction is an
asynchronous timer outside this step); failure bumps `retryCount` and either
re-queues the message or marks it terminally `failed` once the count reaches
`maxRetries`. -/
def sendQueuedMessage (s : MMState) (messageId : String) (outcome : SendOutcome)
    (now : Int) : Bool × MMState × List MMEvent :=
  match alGet s.messageQueue messageId with
  | none => (false, s, [])
  | some qm =>
    if qm.status = .sending then (false, s, [])
    else
      match outcome with
      | .ok =>
        (true,
         { messageQueue :=
             alSet s.messageQueue messageId { qm with status := .sent, sentAt := some now }
           messageHistory := mmAddToHistory s.messageHistory (mkSentMessage qm now) },
         [.message_sending messageId, .message_sent messageId])
      | .fail errMsg =>
        if qm.retryCount + 1 ≥ qm.maxRetries then
          (false,
           { s with
              messageQueue :=
                alSet s.messageQueue messageId
                  { qm with
                      status := .failed
                      retryCount := qm.retryCount + 1
                      lastError := some errMsg } },
           [.message_sending messageId, .message_failed messageId])
        else
          (false,
           { s with
              messageQueue :=
                alSet s.messageQueue messageId
                  { qm with
                      status := .queued
                      retryCount := qm.retryCount + 1
                      lastError := some errMsg } },
           [.message_sending messageId, .message_retry messageId])

/-- `n` consecutive dispatches of one message whose send always fails. -/
def dispatchFailN (messageId : String) : Nat → MMState → MMState
  | 0, s => s
  | k + 1, s =>
    dispatchFailN messageId k (sendQueuedMessage s messageId (.fail "send failed") 0).2.1

/-- A fresh manager holding one just-enqueued message with an explicit
`maxRetries` option. -/
def enqueueFresh («to» : String) (content : MessageContent) (n : Nat)
    (messageId : String) (now : Int) : MMState :=
  (queueOutgoingMessage { messageQueue := [], messageHistory := [] } «to» content
    { maxRetries := some n } messageId now).2.1

/-- Reading back the key just written. -/
theorem alGet_alSet_self {α : Type} (m : List (String × α)) (k : String) (v : α) :
    alGet (alSet m k v) k = some v := by
  induction m with
  | nil => simp [alSet, alGet]
  | cons p rest ih =>
    obtain ⟨k2, v2⟩ := p
    by_cases h : k2 = k
    · simp [alSet, alGet, h]
    · simp [alSet, alGet, h, ih]

/-- Writing one key leaves every other key unchanged. -/
theorem alGet_alSet_ne {α : Type} (m : List (String × α)) (k k2 : String) (v : α)
    (h : k2 ≠ k) : alGet (alSet m k v) k2 = alGet m k2 := by
  have hne : ¬ k = k2 := fun he => h he.symm
  induction m with
  | nil => simp [alSet, alGet, hne]
  | cons p rest ih =>
    obtain ⟨k3, v3⟩ := p
    by_cases h3 : k3 = k
    · subst h3
      simp [alSet, alGet, hne]
    · simp [alSet, alGet, h3, ih]

/-- The conversation key of an outbound record is its destination. -/
theorem chatIdOf_mkSentMessage (qm : QueuedMessage) (now : Int) :
    chatIdOf (mkSentMessage qm now) = qm.«to» := rfl

/-- `MessageManager.addToHistory` appends the record to its conversation
(evicting the oldest overflow) and leaves every other conversation alone. -/
theorem mmAddToHistory_spec (hist : List (String × List WhatsAppMessage))
    (m : WhatsAppMessage) :
    (alGet (mmAddToHistory hist m) (chatIdOf m)).getD []
        = (((alGet hist (chatIdOf m)).getD []) ++ [m]).drop
            (((alGet hist (chatIdOf m)).getD []).length + 1 - maxHistoryPerChat)
    ∧ ∀ k, k ≠ chatIdOf m → alGet (mmAddToHistory hist m) k = alGet hist k := by
  constructor
  · unfold mmAddToHistory
    rw [alGet_alSet_self]
    simp only [Option.getD_some]
    exact cappedPush_eq_drop _ m maxHistoryPerChat
  · intro k hk
    unfold mmAddToHistory
    exact alGet_alSet_ne _ _ _ _ hk

/-- C6: dispatching a `queued` message with a succeeding send returns true,
marks the entry `sent`, and appends exactly one new record to that
conversation's history (other conversations untouched); dispatching a
message already `sending` returns false with no mutation and no event. -/
theorem dispatch_success_and_sending_guard (s : MMState) (messageId : String)
    (now : Int) (qm : QueuedMessage)
    (hget : alGet s.messageQueue messageId = some qm) :
    (qm.status = .queued →
      (sendQueuedMessage s messageId .ok now).1 = true
      ∧ alGet (sendQueuedMessage s messageId .ok now).2.1.messageQueue messageId
          = some { qm with status := .sent, sentAt := some now }
      ∧ (alGet (sendQueuedMessage s messageId .ok now).2.1.messageHistory qm.«to»).getD []
          = (((alGet s.messageHistory qm.«to»).getD []) ++ [mkSentMessage qm now]).drop
              (((alGet s.messageHistory qm.«to»).getD []).length + 1 - maxHistoryPerChat)
      ∧ (((alGet s.messageHistory qm.«to»).getD []).length < maxHistoryPerChat →
          ((alGet (sendQueuedMessage s messageId .ok now).2.1.messageHistory qm.«to»).getD []).length
            = ((alGet s.messageHistory qm.«to»).getD []).length + 1)
      ∧ (∀ k, k ≠ qm.«to» →
          alGet (sendQueuedMessage s messageId .ok now).2.1.messageHistory k
            = alGet s.messageHistory k))
    ∧ (qm.status = .sending →
        sendQueuedMessage s messageId .ok now = (false, s, [])) := by
  constructor
  · intro hq
    have hns : ¬(qm.status = MsgStatus.sending) := by
      rw [hq]
      intro hc
      cases hc
    have hred : sendQueuedMessage s messageId .ok now
        = (true,
           { messageQueue :=
               alSet s.messageQueue messageId { qm with status := .sent, sentAt := some now }
             messageHistory := mmAddToHistory s.messageHistory (mkSentMessage qm now) },
           [.message_sending messageId, .message_sent messageId]) := by
      unfold sendQueuedMessage
      simp only [hget]
      rw [if_neg hns]
    have hmm := mmAddToHistory_spec s.messageHistory (mkSentMessage qm now)
    rw [chatIdOf_mkSentMessage] at hmm
    rw [hred]
    refine ⟨rfl, alGet_alSet_self _ _ _, hmm.1, ?_, hmm.2⟩
    intro hlt
    rw [hmm.1]
    simp only [List.length_drop, List.length_append, List.length_singleton]
    omega
  · intro hs2
    unfold sendQueuedMessage
    simp only [hget]
    rw [if_pos hs2]

/-- Witness for `dispatch_success_and_sending_guard` on a concrete queue. -/
theorem dispatch_success_and_sending_guard_witness :
    (sendQueuedMessage
        { messageQueue := [("m1",
            { id := "m1", «to» := "chat1", content := .str "hello", options := {},
              status := .queued, timestamp := 0, retryCount := 0, maxRetries := 3 })],
          messageHistory := [] } "m1" .ok 5).1 = true
    ∧ sendQueuedMessage
        { messageQueue := [("m1",
            { id := "m1", «to» := "chat1", content := .str "hello", options := {},
              status := .sending, timestamp := 0, retryCount := 0, maxRetries := 3 })],
          messageHistory := [] } "m1" .ok 5
      = (false,
         { messageQueue := [("m1",
             { id := "m1", «to» := "chat1", content := .str "hello", options := {},
               status := .sending, timestamp := 0, retryCount := 0, maxRetries := 3 })],
           messageHistory := [] }, []) := by
  constructor
  · exact ((dispatch_success_and_sending_guard
      { messageQueue := [("m1",
          { id := "m1", «to» := "chat1", content := .str "hello", options := {},
            status := .queued, timestamp := 0, retryCount := 0, maxRetries := 3 })],
        messageHistory := [] } "m1" 5
      { id := "m1", «to» := "chat1", content := .str "hello", options := {},
        status := .queued, timestamp := 0, retryCount := 0, maxRetries := 3 }
      (by decide)).1 rfl).1
  · exact (dispatch_success_and_sending_guard
      { messageQueue := [("m1",
          { id := "m1", «to» := "chat1", content := .str "hello", options := {},
            status := .sending, timestamp := 0, retryCount := 0, maxRetries := 3 })],
        messageHistory := [] } "m1" 5
      { id := "m1", «to» := "chat1", content := .str "hello", options := {},
        status := .sending, timestamp := 0, retryCount := 0, maxRetries := 3 }
      (by decide)).2 rfl

/-- One failing dispatch of a `queued` message: bump `retryCount`; fail
terminally once it reaches `maxRetries`, otherwise re-queue. -/
theorem sendQueuedMessage_fail_step (s : MMState) (messageId : String) (e : String)
    (now : Int) (qm : QueuedMessage)
    (hget : alGet s.messageQueue messageId = some qm) (hq : qm.status = .queued) :
    sendQueuedMessage s messageId (.fail e) now
      = if qm.retryCount + 1 ≥ qm.maxRetries then
          (false,
           { s with
               messageQueue :=
                 alSet s.messageQueue messageId
                   { qm with
                       status := .failed
                       retryCount := qm.retryCount + 1
                       lastError := some e } },
           [.message_sending messageId, .message_failed messageId])
        else
          (false,
           { s with
               messageQueue :=
                 alSet s.messageQueue messageId
                   { qm with
                       status := .queued
                       retryCount := qm.retryCount + 1
                       lastError := some e } },
           [.message_sending messageId, .message_retry messageId]) := by
  have hns : ¬(qm.status = MsgStatus.sending) := by
    rw [hq]
    intro hc
    cases hc
  unfold sendQueuedMessage
  simp only [hget]
  rw [if_neg hns]

/-- As long as failing dispatches stay below `maxRetries`, the message keeps
returning to `queued` with the failure count advanced. -/
theorem dispatchFailN_queued (messageId : String) (k : Nat) :
    ∀ (s : MMState) (qm : QueuedMessage),
      alGet s.messageQueue messageId = some qm →
      qm.status = .queued →
      qm.retryCount + k < qm.maxRetries →
      ∃ qm2 : QueuedMessage,
        alGet (dispatchFailN messageId k s).messageQueue messageId = some qm2
        ∧ qm2.status = .queued
        ∧ qm2.retryCount = qm.retryCount + k
        ∧ qm2.maxRetries = qm.maxRetries := by
  induction k with
  | zero =>
    intro s qm hget hq _
    exact ⟨qm, hget, hq, rfl, rfl⟩
  | succ k ih =>
    intro s qm hget hq hlt
    have hnf : ¬(qm.retryCount + 1 ≥ qm.maxRetries) := by omega
    have hstep := sendQueuedMessage_fail_step s messageId "send failed" 0 qm hget hq
    rw [if_neg hnf] at hstep
    have h1 : dispatchFailN messageId (k + 1) s
        = dispatchFailN messageId k
            (sendQueuedMessage s messageId (.fail "send failed") 0).2.1 := rfl
    rw [h1]
    obtain ⟨qm2, hg2, hs2, hr2, hm2⟩ := ih
      (sendQueuedMessage s messageId (.fail "send failed") 0).2.1
      { qm with status := .queued, retryCount := qm.retryCount + 1, lastError := some "send failed" }
      (by rw [hstep]; exact alGet_alSet_self _ _ _)
      rfl
      (show qm.retryCount + 1 + k < qm.maxRetries by omega)
    have hr2' : qm2.retryCount = qm.retryCount + 1 + k := hr2
    have hm2' : qm2.maxRetries = qm.maxRetries := hm2
    refine ⟨qm2, hg2, hs2, by omega, hm2'⟩

/-- The dispatch that brings the failure count up to `maxRetries` leaves the
message terminally `failed`. -/
theorem dispatchFailN_terminal (messageId : String) (k : Nat) :
    ∀ (s : MMState) (qm : QueuedMessage),
      alGet s.messageQueue messageId = some qm →
      qm.status = .queued →
      qm.retryCount + k + 1 = qm.maxRetries →
      ∃ qm2 : QueuedMessage,
        alGet (dispatchFailN messageId (k + 1) s).messageQueue messageId = some qm2
        ∧ qm2.status = .failed
        ∧ qm2.retryCount = qm.maxRetries := by
  induction k with
  | zero =>
    intro s qm hget hq heq
    have hge : qm.retryCount + 1 ≥ qm.maxRetries := by omega
    have hstep := sendQueuedMessage_fail_step s messageId "send failed" 0 qm hget hq
    rw [if_pos hge] at hstep
    have h1 : dispatchFailN messageId 1 s
        = (sendQueuedMessage s messageId (.fail "send failed") 0).2.1 := rfl
    refine ⟨{ qm with status := .failed, retryCount := qm.retryCount + 1, lastError := some "send failed" },
      ?_, rfl, show qm.retryCount + 1 = qm.maxRetries by omega⟩
    rw [h1, hstep]
    exact alGet_alSet_self _ _ _
  | succ k ih =>
    intro s qm hget hq heq
    have hnf : ¬(qm.retryCount + 1 ≥ qm.maxRetries) := by omega
    have hstep := sendQueuedMessage_fail_step s messageId "send failed" 0 qm hget hq
    rw [if_neg hnf] at hstep
    have h1 : dispatchFailN messageId (k + 1 + 1) s
        = dispatchFailN messageId (k + 1)
            (sendQueuedMessage s messageId (.fail "send failed") 0).2.1 := rfl
    rw [h1]
    obtain ⟨qm2, hg2, hs2, hr2⟩ := ih
      (sendQueuedMessage s messageId (.fail "send failed") 0).2.1
      { qm with status := .queued, retryCount := qm.retryCount + 1, lastError := some "send failed" }
      (by rw [hstep]; exact alGet_alSet_self _ _ _)
      rfl
      (show qm.retryCount + 1 + k + 1 = qm.maxRetries by omega)
    exact ⟨qm2, hg2, hs2, hr2⟩

/-- C3 as stated is false on the code: with `maxRetries = 2` and an
always-throwing send, the message is already terminally `failed` after the
second dispatch (two `sending` legs, events `retry` then `failed`), so the
claimed third `queued` → `sending` leg never happens. -/
theorem maxRetries_trace_counterexample :
    (alGet (enqueueFresh "dest" (.str "hi") 2 "m1" 0).messageQueue "m1").map
        QueuedMessage.maxRetries = some 2
    ∧ (alGet (enqueueFresh "dest" (.str "hi") 2 "m1" 0).messageQueue "m1").map
        QueuedMessage.status = some MsgStatus.queued
    ∧ (sendQueuedMessage (enqueueFresh "dest" (.str "hi") 2 "m1" 0) "m1" (.fail "boom") 1).2.2
        = [MMEvent.message_sending "m1", MMEvent.message_retry "m1"]
    ∧ (alGet (sendQueuedMessage (enqueueFresh "dest" (.str "hi") 2 "m1" 0) "m1"
          (.fail "boom") 1).2.1.messageQueue "m1").map QueuedMessage.status
        = some MsgStatus.queued
    ∧ (sendQueuedMessage
          (sendQueuedMessage (enqueueFresh "dest" (.str "hi") 2 "m1" 0) "m1"
            (.fail "boom") 1).2.1 "m1" (.fail "boom") 2).2.2
        = [MMEvent.message_sending "m1", MMEvent.message_failed "m1"]
    ∧ (alGet (sendQueuedMessage
          (sendQueuedMessage (enqueueFresh "dest" (.str "hi") 2 "m1" 0) "m1"
            (.fail "boom") 1).2.1 "m1" (.fail "boom") 2).2.1.messageQueue "m1").map
        QueuedMessage.status = some MsgStatus.failed
    ∧ (alGet (sendQueuedMessage
          (sendQueuedMessage (enqueueFresh "dest" (.str "hi") 2 "m1" 0) "m1"
            (.fail "boom") 1).2.1 "m1" (.fail "boom") 2).2.1.messageQueue "m1").map
        QueuedMessage.retryCount = some 2 := by
  decide

/-- C3 amended: a freshly enqueued message with `maxRetries = N ≥ 1` whose
send always fails stays `queued` with `retryCount = k` after each of the
first `N - 1` dispatches and is terminally `failed` with `retryCount = N`
after the `N`-th dispatch (so `maxRetries` bounds total attempts, not
retries after the first). -/
theorem always_failing_send_terminal (n : Nat) (hn : 1 ≤ n) («to» : String)
    (content : MessageContent) (messageId : String) (now : Int) :
    ((alGet (dispatchFailN messageId n
          (enqueueFresh «to» content n messageId now)).messageQueue messageId).map
        QueuedMessage.status = some MsgStatus.failed
      ∧ (alGet (dispatchFailN messageId n
          (enqueueFresh «to» content n messageId now)).messageQueue messageId).map
        QueuedMessage.retryCount = some n)
    ∧ ∀ k, k < n →
        ((alGet (dispatchFailN messageId k
              (enqueueFresh «to» content n messageId now)).messageQueue messageId).map
            QueuedMessage.status = some MsgStatus.queued
          ∧ (alGet (dispatchFailN messageId k
              (enqueueFresh «to» content n messageId now)).messageQueue messageId).map
            QueuedMessage.retryCount = some k) := by
  have hget : alGet (enqueueFresh «to» content n messageId now).messageQueue messageId
      = some { id := messageId, «to» := «to», content := content,
               options := { maxRetries := some n }, status := .queued,
               timestamp := now, sentAt := none, retryCount := 0,
               maxRetries := n, lastError := none } := by
    unfold enqueueFresh queueOutgoingMessage
    have hjs : jsNumOr (some n) 3 = n := by
      have hred : jsNumOr (some n) 3 = if n = 0 then 3 else n := rfl
      rw [hred, if_neg (by omega : ¬ n = 0)]
    simp [alGet_alSet_self, hjs]
  constructor
  · obtain ⟨m, rfl⟩ : ∃ m, n = m + 1 := ⟨n - 1, by omega⟩
    obtain ⟨qm2, hg, hs, hr⟩ := dispatchFailN_terminal messageId m
      (enqueueFresh «to» content (m + 1) messageId now) _ hget rfl
      (show 0 + m + 1 = m + 1 by omega)
    have hr' : qm2.retryCount = m + 1 := hr
    rw [hg]
    exact ⟨by simp [hs], by simp [hr']⟩
  · intro k hk
    obtain ⟨qm2, hg, hs, hr, hm⟩ := dispatchFailN_queued messageId k
      (enqueueFresh «to» content n messageId now) _ hget rfl
      (show 0 + k < n by omega)
    have hr' : qm2.retryCount = 0 + k := hr
    rw [hg]
    refine ⟨by simp [hs], ?_⟩
    have hr2 : qm2.retryCount = k := by omega
    simp [hr2]

/-- Witness for `always_failing_send_terminal` at `N = 1`. -/
theorem always_failing_send_terminal_witness :
    (alGet (dispatchFailN "m1" 1 (enqueueFresh "dest" (.str "x") 1 "m1" 0)).messageQueue
      "m1").map QueuedMessage.status = some MsgStatus.failed :=
  (always_failing_send_terminal 1 (by decide) "dest" (.str "x") "m1" 0).1.1

/-- C10 as stated is false on the code: a payload with no `id` field at all
is not rejected — `parseMessage` substitutes a generated id — so the record
is accepted and appended to the conversation history. -/
theorem processIncoming_missing_id_counterexample :
    (processIncomingMessage { messageQueue := [], messageHistory := [] }
        { «from» := some "alice", «to» := some "bob", body := some "hello",
          timestamp := some (.num 5) } "generated-id" 9).1
      = some (parseMessage
          { «from» := some "alice", «to» := some "bob", body := some "hello",
            timestamp := some (.num 5) } "generated-id" 9)
    ∧ (parseMessage
        { «from» := some "alice", «to» := some "bob", body := some "hello",
          timestamp := some (.num 5) } "generated-id" 9).id = "generated-id"
    ∧ (processIncomingMessage { messageQueue := [], messageHistory := [] }
        { «from» := some "alice", «to» := some "bob", body := some "hello",
          timestamp := some (.num 5) } "generated-id" 9).2.1.messageHistory ≠ [] := by
  decide

/-- C10 amended: `processIncomingMessage` always returns the parsed record
or `null` (it is total, nothing can throw); a payload whose `from`/`author`
or `to`/`chatId` fields are all absent or empty yields `null` with every
conversation history untouched; a missing `id`, `type` or `timestamp` is
defaulted (generated id, inferred type, current time) rather than rejected. -/
theorem processIncoming_total_and_validated (s : MMState) (raw : RawMessage)
    (genId : String) (now : Int) :
    ((processIncomingMessage s raw genId now).1 = some (parseMessage raw genId now)
      ∨ processIncomingMessage s raw genId now = (none, s, []))
    ∧ ((strTruthy raw.«from» = false ∧ strTruthy raw.author = false)
        ∨ (strTruthy raw.«to» = false ∧ strTruthy raw.chatId = false) →
        processIncomingMessage s raw genId now = (none, s, [])) := by
  constructor
  · unfold processIncomingMessage
    by_cases h : validateMessage (parseMessage raw genId now) = true
    · left
      rw [if_pos h]
    · right
      rw [if_neg h]
  · intro hcase
    have hval : validateMessage (parseMessage raw genId now) = false := by
      rcases hcase with ⟨h1, h2⟩ | ⟨h1, h2⟩
      · have hfrom : (parseMessage raw genId now).«from» = "" := by
          simp [parseMessage, jsOr2, h1, h2]
        simp [validateMessage, hfrom]
      · have hto : (parseMessage raw genId now).«to» = "" := by
          simp [parseMessage, jsOr2, h1, h2]
        simp [validateMessage, hto]
    unfold processIncomingMessage
    rw [if_neg (by simp [hval])]

/-- Witness for `processIncoming_total_and_validated`: a payload with no
sender field is rejected with no mutation. -/
theorem processIncoming_total_and_validated_witness :
    processIncomingMessage { messageQueue := [], messageHistory := [] }
        { id := some "id1", «to» := some "bob", timestamp := some (.num 5) } "g" 0
      = (none, { messageQueue := [], messageHistory := [] }, []) :=
  (processIncoming_total_and_validated { messageQueue := [], messageHistory := [] }
    { id := some "id1", «to» := some "bob", timestamp := some (.num 5) } "g" 0).2
    (Or.inl ⟨rfl, rfl⟩)

/-! ## WhatsAppClient event wiring (`whatsapp-client.ts`) -/

/-- The `qr` event handler: `setState('waiting_qr')` (whose result is
ignored) followed by `setQrCode(qr)`, which runs unconditionally. -/
def handleQrEvent (s : SMState) (qr : String) (now : Int) : SMState :=
  setQrCode (setState s .waiting_qr now).state (some qr)

/-- The `ready` event handler: `setState('connected')`; the QR code is not
touched here. -/
def handleReadyEvent (s : SMState) (now : Int) : SMState :=
  (setState s .connected now).state

/-- The `authenticated` event handler: `setState('pairing')` then
`setQrCode(null)`. -/
def handleAuthenticatedEvent (s : SMState) (now : Int) : SMState :=
  setQrCode (setState s .pairing now).state none

/-- The `auth_failure` event handler: `setState('error')`. -/
def handleAuthFailureEvent (s : SMState) (now : Int) : SMState :=
  (setState s .error now).state

/-- The `disconnected` event handler: `setState('disconnected')`; the QR
code is not touched here. -/
def handleDisconnectedEvent (s : SMState) (now : Int) : SMState :=
  (setState s .disconnected now).state

/-- The state-manager effect of `connect()` before awaiting the driver:
`setState('connecting')`. -/
def clientConnect (s : SMState) (now : Int) : SMState :=
  (setState s .connecting now).state

/-- The state-manager effect of `disconnect()`: `setQrCode(null)` first,
then `setState('disconnected')`; if the driver teardown throws after the
clear, the catch block force-sets `disconnected` instead. -/
def clientDisconnect (s : SMState) (destroyFails : Bool) (now : Int) : SMState :=
  if destroyFails then (forceSetState (setQrCode s none) .disconnected now).1
  else (setState (setQrCode s none) .disconnected now).state

/-- The session configurations reachable through the client's driver
callbacks and public connect/disconnect calls. -/
inductive ClientReachable : SMState → Prop
  | init (now : Int) : ClientReachable (smInit now)
  | qr {s : SMState} (payload : String) (now : Int) :
      ClientReachable s → ClientReachable (handleQrEvent s payload now)
  | ready {s : SMState} (now : Int) :
      ClientReachable s → ClientReachable (handleReadyEvent s now)
  | authenticated {s : SMState} (now : Int) :
      ClientReachable s → ClientReachable (handleAuthenticatedEvent s now)
  | auth_failure {s : SMState} (now : Int) :
      ClientReachable s → ClientReachable (handleAuthFailureEvent s now)
  | disconnected_event {s : SMState} (now : Int) :
      ClientReachable s → ClientReachable (handleDisconnectedEvent s now)
  | connect {s : SMState} (now : Int) :
      ClientReachable s → ClientReachable (clientConnect s now)
  | disconnect {s : SMState} (destroyFails : Bool) (now : Int) :
      ClientReachable s → ClientReachable (clientDisconnect s destroyFails now)

/-- `setState` never touches the QR code. -/
theorem setState_qrCode (s : SMState) (t : WAStatus) (now : Int) :
    (setState s t now).state.qrCode = s.qrCode := by
  unfold setState
  by_cases h1 : s.currentState = t
  · rw [if_pos h1]
  · rw [if_neg h1]
    by_cases h2 : canTransitionTo s t
    · rw [if_pos h2]
    · rw [if_neg h2]

/-- C7 as stated is false on the code: after `connect()`, a `qr` event and a
`ready` event, the session is in the `connected` state while the pairing
payload is still present — the `ready` handler never clears it. -/
theorem qr_nonnull_in_connected_counterexample :
    ClientReachable (handleReadyEvent (handleQrEvent (clientConnect (smInit 0) 1)
        "QR-PAYLOAD" 2) 3)
    ∧ (handleReadyEvent (handleQrEvent (clientConnect (smInit 0) 1)
        "QR-PAYLOAD" 2) 3).currentState = .connected
    ∧ (handleReadyEvent (handleQrEvent (clientConnect (smInit 0) 1)
        "QR-PAYLOAD" 2) 3).qrCode = some "QR-PAYLOAD" := by
  refine ⟨?_, by decide, by decide⟩
  exact ClientReachable.ready 3 (ClientReachable.qr "QR-PAYLOAD" 2
    (ClientReachable.connect 1 (ClientReachable.init 0)))

/-- C7 amended: the pairing payload is cleared by the `authenticated`
handler (entry into `pairing`) and by every `disconnect()` path, but the
`ready` handler (entry into `connected`) and the `disconnected` event
handler leave it untouched, so it can remain non-null outside `waiting_qr`. -/
theorem qrCode_clearing_discipline (s : SMState) (destroyFails : Bool) (now : Int) :
    (handleAuthenticatedEvent s now).qrCode = none
    ∧ (clientDisconnect s destroyFails now).qrCode = none
    ∧ (handleReadyEvent s now).qrCode = s.qrCode
    ∧ (handleDisconnectedEvent s now).qrCode = s.qrCode := by
  refine ⟨rfl, ?_, setState_qrCode s .connected now, setState_qrCode s .disconnected now⟩
  unfold clientDisconnect
  by_cases h : destroyFails = true
  · rw [if_pos h]
    rfl
  · rw [if_neg h]
    rw [setState_qrCode]
    rfl

end SaasWA
